import Mathlib

/-!
Shallow embedding of the query/polling layer of `botasaurus_driver/core/tab.py`
and of `botasaurus_driver/cdp/dom_storage.py`.

Conventions used throughout:
* Time is measured in tenths of a second; the fixed retry interval
  `await self.sleep(0.5)` is the constant `retry_interval = 5`.
* Protocol calls are modelled by oracles indexed by the attempt number
  (the n-th time the method issues that protocol call in one invocation).
* Python loops become fuel-indexed structural recursion; `none` as the
  overall result means the fuel (Python: the recursion/iteration budget)
  was exhausted before the function returned.
-/

namespace BotasaurusTab

/-- Fixed polling interval of the engine, `await self.sleep(0.5)`,
in tenths of a second. -/
def retry_interval : Nat := 5

/-- Observable outcome of one of the polling entry points: either a value
returned normally (with the elapsed time, in tenths of a second, at which
the `return` executes), or an `ElementWithSelectorNotFoundException`
raised (as in `Tab.wait_for`), carrying the selector and the elapsed time. -/
inductive PollOutcome (α : Type) where
  | result : α → Nat → PollOutcome α
  | raisedNotFound : String → Nat → PollOutcome α
deriving DecidableEq

/-- Body of the `while not item` loop of `Tab.select` (tab.py 224-252):
each iteration re-queries (`item = await self.query_selector(...)`), returns
`None` once the deadline has passed, and otherwise sleeps 0.5 s before
re-testing the loop condition. `query n` is the result of the n-th
`query_selector` call of this invocation. -/
def selectLoop (query : Nat → Option α) (timeout : Nat) :
    Nat → Nat → Nat → Option (PollOutcome (Option α))
  | 0, _, _ => none
  | fuel + 1, n, elapsed =>
    let item := query n
    if timeout < elapsed then some (.result none elapsed)
    else
      match item with
      | some e => some (.result (some e) (elapsed + retry_interval))
      | none => selectLoop query timeout fuel (n + 1) (elapsed + retry_interval)

/-- `Tab.select` (tab.py 224-252): one immediate `query_selector` attempt,
then (when `timeout` is truthy) the polling loop. -/
def select (query : Nat → Option α) (timeout : Nat) (fuel : Nat) :
    Option (PollOutcome (Option α)) :=
  match query 0 with
  | some e => some (.result (some e) 0)
  | none =>
    if timeout = 0 then some (.result none 0)
    else selectLoop query timeout fuel 1 0

/-- Lower-casing of a string, modelling Python `str.lower()` on the
character list of the string. -/
def lowerStr (s : String) : String :=
  String.mk (s.data.map Char.toLower)

/-- Post-filter of `Tab.select_all` (tab.py 314):
`[item for item in results if item.node.node_name.lower() == node_name.lower()]
if node_name else results`. -/
def namefilter (node_name : Option String) (nameOf : α → String)
    (results : List α) : List α :=
  match node_name with
  | some nm => results.filter (fun it => lowerStr (nameOf it) = lowerStr nm)
  | none => results

/-- Body of the `while not results` loop of `Tab.select_all` (tab.py 284-316).
On deadline it executes `return results` directly (note: skipping the
`node_name` post-filter); on a non-empty result it sleeps once more, exits
the loop and runs the post-filter. -/
def selectAllLoop (query : Nat → List α) (timeout : Nat)
    (node_name : Option String) (nameOf : α → String) :
    Nat → Nat → Nat → Option (PollOutcome (List α))
  | 0, _, _ => none
  | fuel + 1, n, elapsed =>
    let results := query n
    if timeout < elapsed then some (.result results elapsed)
    else if results.isEmpty then
      selectAllLoop query timeout node_name nameOf fuel (n + 1)
        (elapsed + retry_interval)
    else
      some (.result (namefilter node_name nameOf results)
        (elapsed + retry_interval))

/-- `Tab.select_all` (tab.py 284-316): immediate `query_selector_all`
attempt, polling loop while empty, then `if not results: return []` and the
optional `node_name` filter. -/
def select_all (query : Nat → List α) (timeout : Nat)
    (node_name : Option String) (nameOf : α → String) (fuel : Nat) :
    Option (PollOutcome (List α)) :=
  let results := query 0
  if timeout = 0 then
    some (.result (if results.isEmpty then []
      else namefilter node_name nameOf results) 0)
  else if results.isEmpty then
    selectAllLoop query timeout node_name nameOf fuel 1 0
  else some (.result (namefilter node_name nameOf results) 0)

/-- Body of the `while not item` loop of `Tab.wait_for` (tab.py 842-878):
identical polling shape to `Tab.select`, except that on deadline it raises
`ElementWithSelectorNotFoundException(selector)` instead of returning
`None`. -/
def waitForLoop (query : Nat → Option α) (selector : String) (timeout : Nat) :
    Nat → Nat → Nat → Option (PollOutcome (Option α))
  | 0, _, _ => none
  | fuel + 1, n, elapsed =>
    let item := query n
    if timeout < elapsed then some (.raisedNotFound selector elapsed)
    else
      match item with
      | some e => some (.result (some e) (elapsed + retry_interval))
      | none =>
        waitForLoop query selector timeout fuel (n + 1)
          (elapsed + retry_interval)

/-- `Tab.wait_for` (tab.py 842-878). The body consists solely of the
`if selector:` branch; when `selector` is empty (falsy) the function body
ends and Python returns `None` implicitly, and the `text` argument is
never consulted. -/
def wait_for (query : Nat → Option α) (selector text : String)
    (timeout : Nat) (fuel : Nat) : Option (PollOutcome (Option α)) :=
  if selector.isEmpty then some (.result none 0)
  else
    match query 0 with
    | some e => some (.result (some e) 0)
    | none => waitForLoop query selector timeout fuel 1 0

/-- `Tab.__call__` (tab.py 1000-1015): `return self.wait_for(text, selector,
timeout)` — the `text` argument is forwarded positionally into `wait_for`'s
`selector` parameter and `selector` into its `text` parameter. -/
def __call__ (query : Nat → Option α) (text selector : String)
    (timeout : Nat) (fuel : Nat) : Option (PollOutcome (Option α)) :=
  wait_for query text selector timeout fuel

/-! Stale-node recovery in `Tab.query_selector_all` (tab.py 318-379) and
`Tab.query_selector` (tab.py 381-428), node-scoped (`_node is not None`). -/

/-- Error payload of a `ProtocolException`. -/
structure PErr where
  message : String
deriving DecidableEq

/-- Substring test on character lists: does `hay` contain `needle`? -/
def hasSub : List Char → List Char → Bool
  | [], needle => needle.isEmpty
  | h :: t, needle => needle.isPrefixOf (h :: t) || hasSub t needle

/-- The test `"could not find node" in e.message.lower()` (tab.py 352, 409). -/
def containsNodeNotFound (msg : String) : Bool :=
  hasSub (lowerStr msg).data "could not find node".data

/-- Python private-name mangling: an identifier `__name` (two leading
underscores, not two trailing ones) written inside `class Cls` is compiled
as `_Cls__name`. Attribute accesses written with dot syntax inside `Tab`
(`_node.__last = True`, `del _node.__last`) are mangled; the string passed
to `getattr(_node, "__last", None)` is not. -/
def pyMangle (cls name : String) : String :=
  if name.data.take 2 = ['_', '_'] ∧ (name.data.reverse.take 2 ≠ ['_', '_'])
  then "_" ++ cls ++ name else name

/-- The attribute name actually written by `_node.__last = True` inside
`class Tab`. -/
def mangledLast : String := pyMangle "Tab" "__last"

/-- The node passed as `_node`: its dynamic attribute dictionary plus a
counter of how many times `await _node.update()` has been executed on it. -/
structure NodeRef where
  attrs : List (String × Bool)
  updates : Nat
deriving DecidableEq

/-- The guard `getattr(_node, "__last", None)` (tab.py 353, 410): a lookup
of the literal, unmangled attribute name `"__last"`. -/
def pyGetLast (node : NodeRef) : Bool :=
  (node.attrs.lookup "__last").getD false

/-- The refresh step `await _node.update()` followed by
`_node.__last = True` (tab.py 358-361, 415-418); the assignment stores the
mangled attribute name. -/
def pyUpdateAndMark (node : NodeRef) : NodeRef :=
  { attrs := (mangledLast, true) :: node.attrs, updates := node.updates + 1 }

/-- The statement `del _node.__last` (tab.py 354, 411); it too refers to
the mangled attribute name. -/
def pyDelMangledLast (node : NodeRef) : NodeRef :=
  { node with attrs := node.attrs.filter (fun kv => !(kv.1 == mangledLast)) }

/-- What an invocation of a node-scoped query can be observed to do:
return a value, let a `ProtocolException` escape, or sink into unbounded
recursion until Python's recursion limit (modelled as running out of
fuel). -/
inductive ScopedOutcome (α : Type) where
  | ret : α → ScopedOutcome α
  | raised : PErr → ScopedOutcome α
  | recursionLimit : ScopedOutcome α
deriving DecidableEq

/-- `Tab.query_selector_all` (tab.py 318-379) with `_node` supplied.
`proto n` is the reply of the n-th `cdp.dom.query_selector_all` protocol
call of this invocation; `known nid` models whether
`util.filter_recurse(doc, ...)` finds node id `nid` in the fetched tree
(missing ids are skipped by `continue`). On a `ProtocolException` whose
message contains "could not find node": if `getattr(_node, "__last", None)`
is truthy, delete the flag and return `[]`; otherwise refresh the node,
set the flag and recurse. Any other `ProtocolException` falls through the
handler (it is swallowed), leaving `node_ids = []`, so `[]` is returned. -/
def query_selector_all (proto : Nat → Except PErr (List Nat))
    (known : Nat → Bool) :
    Nat → NodeRef → Nat → ScopedOutcome (List Nat) × NodeRef
  | 0, node, _ => (.recursionLimit, node)
  | fuel + 1, node, n =>
    match proto n with
    | .ok node_ids => (.ret (node_ids.filter known), node)
    | .error e =>
      if containsNodeNotFound e.message then
        if pyGetLast node then (.ret [], pyDelMangledLast node)
        else query_selector_all proto known fuel (pyUpdateAndMark node) (n + 1)
      else (.ret [], node)

/-- Result values of `Tab.query_selector`: an element, the implicit `None`
(no `node_id`, or the id is not found in the tree), or the literal `[]`
returned by the stale-node guard branch (tab.py 412). -/
inductive QsResult where
  | elem : Nat → QsResult
  | noneRes : QsResult
  | emptyList : QsResult
deriving DecidableEq

/-- `Tab.query_selector` (tab.py 381-428) with `_node` supplied; same
handler structure as `query_selector_all`, but a swallowed exception
leaves `node_id = None`, so `None` is returned. -/
def query_selector (proto : Nat → Except PErr (Option Nat))
    (known : Nat → Bool) :
    Nat → NodeRef → Nat → ScopedOutcome QsResult × NodeRef
  | 0, node, _ => (.recursionLimit, node)
  | fuel + 1, node, n =>
    match proto n with
    | .ok node_id =>
      match node_id with
      | none => (.ret .noneRes, node)
      | some nid =>
        if known nid then (.ret (.elem nid), node) else (.ret .noneRes, node)
    | .error e =>
      if containsNodeNotFound e.message then
        if pyGetLast node then (.ret .emptyList, pyDelMangledLast node)
        else query_selector proto known fuel (pyUpdateAndMark node) (n + 1)
      else (.ret .noneRes, node)

/-! Text search: `append_safe`, `isbanned`, `issametype` (tab.py 18-29),
`Tab.checktextnodeandappend` (tab.py 581-605),
`Tab.find_element_by_text` (tab.py 505-579) and `Tab.find` (tab.py 166-222). -/

/-- A protocol-level DOM node: `node_name` and `node_type`. -/
structure DomNode where
  node_name : String
  node_type : Nat
deriving DecidableEq

/-- An element handle as used by the text search: the wrapped node, its
rendered text (`elem.text`), and its parent element if resolved. -/
inductive Elem where
  | mk : DomNode → String → Option Elem → Elem

/-- The wrapped node of an element. -/
def Elem.node : Elem → DomNode
  | .mk n _ _ => n

/-- The rendered text of an element. -/
def Elem.text : Elem → String
  | .mk _ t _ => t

/-- The parent element, when resolved. -/
def Elem.parent : Elem → Option Elem
  | .mk _ _ p => p

/-- `elem.node_type` delegates to the wrapped node. -/
def Elem.node_type (e : Elem) : Nat := e.node.node_type

/-- `bannedtextsearchresults` (tab.py 18). -/
def bannedtextsearchresults : List String :=
  ["title", "meta", "script", "link", "style", "head"]

/-- `isbanned(node)` (tab.py 19-20). -/
def isbanned (node : DomNode) : Bool :=
  bannedtextsearchresults.contains (lowerStr node.node_name)

/-- `issametype(node, type)` (tab.py 22-23). -/
def issametype (node : DomNode) (type : String) : Bool :=
  lowerStr node.node_name == type

/-- `append_safe(results, elem, text, exact_match)` (tab.py 24-29). -/
def append_safe (results : List Elem) (elem : Elem) (text : String)
    (exact_match : Bool) : List Elem :=
  if exact_match then
    if text = elem.text then results ++ [elem] else results
  else results ++ [elem]

/-- `Tab.checktextnodeandappend` (tab.py 581-605). For a text node
(node type 3) the element appended is `elem.parent or elem`, after an
`await elem.update()` (modelled by `updateF`) when no parent is resolved;
note that no `return_enclosing_element` parameter exists here. -/
def checktextnodeandappend (updateF : Elem → Elem) (type : Option String)
    (results : List Elem) (elem : Elem) (text : String)
    (exact_match : Bool) : List Elem :=
  if elem.node_type = 3 then
    let elem1 := if elem.parent.isNone then updateF elem else elem
    let final := elem1.parent.getD elem1
    match type with
    | some t =>
      if issametype final.node t then append_safe results final text exact_match
      else results
    | none =>
      if isbanned final.node then results
      else append_safe results final text exact_match
  else
    match type with
    | some t =>
      if issametype elem.node t then append_safe results elem text exact_match
      else results
    | none =>
      if isbanned elem.node then results
      else append_safe results elem text exact_match

/-- The `for nid in node_ids` scan loop of `Tab.find_element_by_text`
(tab.py 539-549) followed by its epilogue (tab.py 571-579): each iteration
first returns `results[0]` if `results` is non-empty, else resolves the
node id (`util.filter_recurse` + `element.create`, combined into `lookup`;
a failure is `continue`) and runs `checktextnodeandappend`; after the loop,
`None` is returned if `results` is empty, else its first entry. -/
def findElemLoop (lookup : Nat → Option Elem) (updateF : Elem → Elem)
    (type : Option String) (text : String) (exact_match : Bool) :
    List Nat → List Elem → Option Elem
  | [], results => results.head?
  | nid :: rest, results =>
    if results.isEmpty then
      match lookup nid with
      | none => findElemLoop lookup updateF type text exact_match rest results
      | some elem =>
        findElemLoop lookup updateF type text exact_match rest
          (checktextnodeandappend updateF type results elem text exact_match)
    else results.head?

/-- `Tab.find_element_by_text` (tab.py 505-579). `node_ids` are the search
hits returned by `cdp.dom.get_search_results`. The `best_match` and
`return_enclosing_element` parameters are bound but never read by the
body, exactly as in the source. -/
def find_element_by_text (node_ids : List Nat) (lookup : Nat → Option Elem)
    (updateF : Elem → Elem) (best_match : Bool)
    (return_enclosing_element : Bool) (type : Option String) (text : String)
    (exact_match : Bool) : Option Elem :=
  findElemLoop lookup updateF type text exact_match node_ids []

/-- Modelled from the spec: "the text-based single-element lookup returns
on the very first non-empty candidate encountered inside its scan loop".
This is the specification-side scan — the first non-empty candidate list
that `checktextnodeandappend` produces along the hit list — used to state
the C5 refinement against `find_element_by_text`. -/
def firstNonEmptyScan (lookup : Nat → Option Elem) (updateF : Elem → Elem)
    (type : Option String) (text : String) (exact_match : Bool) :
    List Nat → List Elem
  | [] => []
  | nid :: rest =>
    let r :=
      match lookup nid with
      | none => []
      | some elem => checktextnodeandappend updateF type [] elem text exact_match
    if r.isEmpty then firstNonEmptyScan lookup updateF type text exact_match rest
    else r

/-- `Tab.find` (tab.py 166-222): one immediate `find_element_by_text`
attempt, then (when `timeout` is truthy) the same polling loop shape as
`Tab.select`; `scan n` is the result of the n-th `find_element_by_text`
call. -/
def find (scan : Nat → Option Elem) (timeout : Nat) (fuel : Nat) :
    Option (PollOutcome (Option Elem)) :=
  match scan 0 with
  | some e => some (.result (some e) 0)
  | none =>
    if timeout = 0 then some (.result none 0)
    else selectLoop scan timeout fuel 1 0

/-! Script evaluation: `Tab.evaluate` (tab.py 608-642) and `Tab.js_dumps`
(tab.py 643-820). -/

/-- The `cdp.runtime.RemoteObject` as consumed here: only its `value`
field is read. -/
structure RemoteObject where
  value : Option String
deriving DecidableEq

/-- The two exception classes `Tab.evaluate` and `Tab.js_dumps` can raise:
`JavascriptSyntaxException` and `JavascriptException(details)`. -/
inductive JsErr where
  | syntaxErr : JsErr
  | scriptExc : String → JsErr
deriving DecidableEq

/-- Return shapes of `Tab.evaluate`: the decoded `.get("x")` value, the
raw `remote_object` (when `return_by_value` is false), or the implicit
`None`. -/
inductive EvalReturn (V : Type) where
  | value : Option V → EvalReturn V
  | raw : RemoteObject → EvalReturn V
  | noneRet : EvalReturn V
deriving DecidableEq

/-- `Tab.evaluate` (tab.py 608-642). `response` is what
`self.send(cdp.runtime.evaluate(...))` yields: `none` models no response
at all (a falsy `response`; a populated reply tuple is always truthy);
otherwise the pair `(remote_object, errors)`. `parseX` models
`json.loads(util.get_remote_object_value(remote_object)).get("x")`. -/
def evaluate (parseX : String → Option V) (return_by_value : Bool)
    (response : Option (Option RemoteObject × Option String)) :
    Except JsErr (EvalReturn V) :=
  match response with
  | none => .error .syntaxErr
  | some (remote_object, errors) =>
    match errors with
    | some errs => .error (.scriptExc errs)
    | none =>
      match remote_object with
      | some ro =>
        if return_by_value then
          match ro.value with
          | some s => .ok (.value (parseX s))
          | none => .ok .noneRet
        else .ok (.raw ro)
      | none => .ok .noneRet

/-- Return shapes of `Tab.js_dumps`: `remote_object.value`, the implicit
`None`, or the `(remote_object, exception_details)` tuple. -/
inductive DumpReturn where
  | value : String → DumpReturn
  | noneRet : DumpReturn
  | raw : RemoteObject → Option String → DumpReturn
deriving DecidableEq

/-- `Tab.js_dumps` (tab.py 643-820), after its two in-page serialization
strategies. `respA` is the reply to evaluating `js_code_a` (the
depth-bounded strategy), `respB` the reply to evaluating `js_code_b` (the
cycle-guarded strategy); each is `(remote_object, exception_details)`.
The second strategy is evaluated only inside
`if exception_details:`; the returned boolean records whether that branch
ran. A `JavascriptException` is raised only from the second
`if exception_details:`. -/
def js_dumps (return_by_value : Bool)
    (respA respB : RemoteObject × Option String) :
    Except JsErr DumpReturn × Bool :=
  let ro1 := respA.1
  let ed1 := respA.2
  let stepB := ed1.isSome
  let ro2 := if stepB then respB.1 else ro1
  let ed2 := if stepB then respB.2 else ed1
  match ed2 with
  | some d => (.error (.scriptExc d), stepB)
  | none =>
    if return_by_value then
      match ro2.value with
      | some s => (.ok (.value s), stepB)
      | none => (.ok .noneRet, stepB)
    else (.ok (.raw ro2 none), stepB)

end BotasaurusTab

namespace BotasaurusDomStorage

/-- JSON values as they appear in a params dictionary built by
`dom_storage.py`; `null` exists in the type to make "never emitted as
null" a non-vacuous statement. -/
inductive JVal where
  | str : String → JVal
  | bool : Bool → JVal
  | null : JVal
deriving DecidableEq

/-- `StorageId` (dom_storage.py 28-41); `SerializedStorageKey` is a `str`
subclass whose `to_json` is the identity, so it is modelled as `String`. -/
structure StorageId where
  is_local_storage : Bool
  security_origin : Option String
  storage_key : Option String
deriving DecidableEq

/-- `StorageId.to_json` (dom_storage.py 43-50): start from an empty dict,
always set `"isLocalStorage"`, and set `"securityOrigin"` /
`"storageKey"` only under their `is not None` checks. The dict is modelled
as an insertion-ordered key/value list. -/
def StorageId.to_json (s : StorageId) : List (String × JVal) :=
  let json := [("isLocalStorage", JVal.bool s.is_local_storage)]
  let json :=
    match s.security_origin with
    | some so => json ++ [("securityOrigin", JVal.str so)]
    | none => json
  let json :=
    match s.storage_key with
    | some sk => json ++ [("storageKey", JVal.str sk)]
    | none => json
  json

end BotasaurusDomStorage

namespace BotasaurusTab

/-! Concrete instances used by counterexamples and witnesses. -/

/-- A protocol oracle that reports the Chrome DevTools message
"Could not find node with given id" on every attempt (list-valued
queries, as issued by `query_selector_all`). -/
def protoNnfL : Nat → Except PErr (List Nat) :=
  fun _ => .error ⟨"Could not find node with given id"⟩

/-- The same persistently failing oracle for single-id queries, as issued
by `query_selector`. -/
def protoNnfQ : Nat → Except PErr (Option Nat) :=
  fun _ => .error ⟨"Could not find node with given id"⟩

/-- A node reference as it enters its first scoped query: no dynamic
attributes, no `update` performed yet. -/
def freshNode : NodeRef := ⟨[], 0⟩

/-- A span element with rendered text "hello" and no resolved parent. -/
def spanElem : Elem := .mk ⟨"SPAN", 1⟩ "hello" none

/-- The text node (node type 3) holding "hello", whose parent element is
`spanElem`. -/
def textNodeElem : Elem := .mk ⟨"#text", 3⟩ "hello" (some spanElem)

/-- A document lookup for the text search: node id 1 resolves to the text
node, every other id is absent. -/
def helloLookup : Nat → Option Elem :=
  fun nid => if nid = 1 then some textNodeElem else none

/-- A button element whose text strictly contains the query "login". -/
def loginButton : Elem := .mk ⟨"BUTTON", 1⟩ "login button" none

end BotasaurusTab

namespace BotasaurusDomStorage

/-- C9: the params object built by `StorageId.to_json` always contains the
key "isLocalStorage", contains "securityOrigin" exactly when
`security_origin` is set, contains "storageKey" exactly when `storage_key`
is set, and no entry ever carries a null value. -/
theorem claim_C9_theorem : ∀ s : StorageId,
    ("isLocalStorage" ∈ (s.to_json).map Prod.fst)
    ∧ ("securityOrigin" ∈ (s.to_json).map Prod.fst
        ↔ s.security_origin.isSome = true)
    ∧ ("storageKey" ∈ (s.to_json).map Prod.fst ↔ s.storage_key.isSome = true)
    ∧ ∀ kv ∈ s.to_json, kv.2 ≠ JVal.null := by
  intro s
  obtain ⟨b, so, sk⟩ := s
  rcases so with _ | so <;> rcases sk with _ | sk <;>
    simp [StorageId.to_json]

end BotasaurusDomStorage

namespace BotasaurusTab

/-- C10: `Tab.__call__(text, selector, timeout)` forwards its arguments
positionally into `wait_for(selector, text, timeout)`, so the `text`
argument lands in `wait_for`'s `selector` parameter; consequently an
invocation of the alias with only `selector` set (text empty) takes
`wait_for`'s implicit fall-through, performs no lookup (the result does
not depend on the query oracle), and returns `None` immediately. -/
theorem claim_C10_theorem :
    (∀ (query : Nat → Option Nat) (text selector : String) (timeout fuel : Nat),
      __call__ query text selector timeout fuel
        = wait_for query text selector timeout fuel)
    ∧ (∀ (query : Nat → Option Nat) (selector : String) (timeout fuel : Nat),
      __call__ query "" selector timeout fuel
        = some (.result none 0)) := by
  constructor
  · intro query text selector timeout fuel
    rfl
  · intro query selector timeout fuel
    rfl

/-- C6: with `exact_match=false`, `append_safe` keeps every candidate that
reaches it; with `exact_match=true` it keeps the candidate exactly when
the candidate's full text equals the query string, so a candidate whose
text merely contains the query as a proper substring is kept only when
`exact_match` is false. -/
theorem claim_C6_theorem : ∀ (results : List Elem) (elem : Elem) (text : String),
    elem ∈ append_safe results elem text false
    ∧ (text = elem.text → append_safe results elem text true = results ++ [elem])
    ∧ (text ≠ elem.text → append_safe results elem text true = results) := by
  intro results elem text
  refine ⟨?_, ?_, ?_⟩
  · simp [append_safe]
  · intro h
    simp [append_safe, h]
  · intro h
    simp [append_safe, h]

/-- C6 witness: "login" is a proper substring of the button text
"login button"; the exact-match pass drops the button while the
substring pass keeps it. -/
theorem claim_C6_witness :
    "login" ≠ loginButton.text
    ∧ append_safe [] loginButton "login" true = []
    ∧ loginButton ∈ append_safe [] loginButton "login" false := by
  have hne : "login" ≠ loginButton.text := by decide
  exact ⟨hne, (claim_C6_theorem [] loginButton "login").2.2 hne,
    (claim_C6_theorem [] loginButton "login").1⟩

/-- C7: `Tab.evaluate` raises `JavascriptSyntaxException` exactly when the
remote call yields no response at all, raises `JavascriptException` with
the remote exception details exactly when the response reports an
exception, and in every other case returns normally. -/
theorem claim_C7_theorem : ∀ (parseX : String → Option Nat) (rbv : Bool)
    (response : Option (Option RemoteObject × Option String)),
    (evaluate parseX rbv response = .error .syntaxErr ↔ response = none)
    ∧ (∀ d, evaluate parseX rbv response = .error (.scriptExc d)
        ↔ ∃ ro, response = some (ro, some d))
    ∧ ((∃ r, evaluate parseX rbv response = .ok r)
        ↔ ∃ ro, response = some (ro, none)) := by
  intro parseX rbv response
  rcases response with _ | ⟨ro, err⟩
  · simp [evaluate]
  · rcases err with _ | d
    · rcases ro with _ | ro
      · simp [evaluate]
      · cases rbv
        · simp [evaluate]
        · rcases hv : ro.value with _ | s <;> simp [evaluate, hv]
    · simp [evaluate]

/-- C8: `Tab.js_dumps` evaluates the second, cycle-guarded strategy
exactly when the first strategy reported exception details; it raises
`JavascriptException` exactly when both strategies reported exception
details, and the surfaced details are those of the second strategy, so a
first-strategy exception alone never reaches the caller. -/
theorem claim_C8_theorem : ∀ (rbv : Bool) (a b : RemoteObject × Option String),
    ((js_dumps rbv a b).2 = a.2.isSome)
    ∧ ((∃ d, (js_dumps rbv a b).1 = .error (.scriptExc d))
        ↔ (a.2.isSome = true ∧ b.2.isSome = true))
    ∧ (∀ d, (js_dumps rbv a b).1 = .error (.scriptExc d) → b.2 = some d) := by
  intro rbv a b
  rcases a with ⟨roA, edA⟩
  rcases b with ⟨roB, edB⟩
  rcases edA with _ | dA
  · rcases hv : roA.value with _ | s <;> cases rbv <;> simp [js_dumps, hv]
  · rcases edB with _ | dB
    · rcases hv : roB.value with _ | s <;> cases rbv <;> simp [js_dumps, hv]
    · simp [js_dumps]

/-- C8 witness: a first-strategy exception "errA" with a second-strategy
exception "errB" makes the fallback run and surfaces "errB". -/
theorem claim_C8_witness :
    (js_dumps true (⟨some "x"⟩, some "errA") (⟨none⟩, some "errB")).2 = true
    ∧ (js_dumps true (⟨some "x"⟩, some "errA") (⟨none⟩, some "errB")).1
        = .error (.scriptExc "errB") := by
  have h := claim_C8_theorem true (⟨some "x"⟩, some "errA") (⟨none⟩, some "errB")
  refine ⟨h.1, ?_⟩
  rfl

/-- Once the scan loop of `find_element_by_text` holds a non-empty
candidate list, it returns that list's head without touching any further
hit. -/
lemma findElemLoop_of_nonempty (lookup : Nat → Option Elem)
    (updateF : Elem → Elem) (type : Option String) (text : String)
    (em : Bool) (l : List Nat) (results : List Elem) (h : results ≠ []) :
    findElemLoop lookup updateF type text em l results = results.head? := by
  cases l with
  | nil => rfl
  | cons nid rest =>
    cases results with
    | nil => exact absurd rfl h
    | cons a as => simp [findElemLoop]

/-- C5: `find_element_by_text` returns the head of the first non-empty
candidate list produced by its scan loop, for every value of `best_match`
and `return_enclosing_element` — the best-match-by-closest-text-length
scoring is never applied in that call. -/
theorem claim_C5_theorem : ∀ (node_ids : List Nat) (lookup : Nat → Option Elem)
    (updateF : Elem → Elem) (best_match return_enclosing_element : Bool)
    (type : Option String) (text : String) (exact_match : Bool),
    find_element_by_text node_ids lookup updateF best_match
        return_enclosing_element type text exact_match
      = (firstNonEmptyScan lookup updateF type text exact_match node_ids).head? := by
  intro node_ids lookup updateF bm re type text em
  show findElemLoop lookup updateF type text em node_ids []
    = (firstNonEmptyScan lookup updateF type text em node_ids).head?
  induction node_ids with
  | nil => rfl
  | cons nid rest ih =>
    cases hl : lookup nid with
    | none =>
      simpa [findElemLoop, firstNonEmptyScan, hl] using ih
    | some elem =>
      rcases hr : checktextnodeandappend updateF type [] elem text em with _ | ⟨a, as⟩
      · simpa [findElemLoop, firstNonEmptyScan, hl, hr] using ih
      · simp [findElemLoop, firstNonEmptyScan, hl, hr,
          findElemLoop_of_nonempty lookup updateF type text em rest (a :: as)
            (by simp)]

/-- C3: evaluating `find` at a text-node hit whose parent is a span shows
the `return_enclosing_element` flag is ignored — with the flag false the
call still yields the enclosing span element, not the raw text node the
flag (and the method's own docstring) promises. -/
theorem claim_C3_theorem :
    find (fun _ => find_element_by_text [1] helloLookup id false false none
      "hello" false) 10 4 = some (.result (some spanElem) 0)
    ∧ find (fun _ => find_element_by_text [1] helloLookup id false true none
      "hello" false) 10 4 = some (.result (some spanElem) 0)
    ∧ textNodeElem.node_type = 3
    ∧ spanElem.node_type = 1
    ∧ textNodeElem.parent = some spanElem := by
  exact ⟨rfl, rfl, rfl, rfl, rfl⟩

/-- On a never-matching query oracle, the `wait_for` polling loop raises
`ElementWithSelectorNotFoundException` at the first multiple of the retry
interval past the deadline. -/
lemma waitForLoop_never_matches {α : Type} (query : Nat → Option α)
    (sel : String) (T : Nat) (hq : ∀ m, query m = none) :
    ∀ fuel n elapsed, elapsed ≤ T → (T - elapsed) / 5 + 2 ≤ fuel →
      ∃ r, waitForLoop query sel T fuel n elapsed
          = some (.raisedNotFound sel r) ∧ T < r ∧ r ≤ T + 5 := by
  intro fuel
  induction fuel with
  | zero =>
    intro n elapsed h1 h2
    omega
  | succ f ih =>
    intro n elapsed h1 h2
    have hstep : waitForLoop query sel T (f + 1) n elapsed
        = waitForLoop query sel T f (n + 1) (elapsed + retry_interval) := by
      simp [waitForLoop, hq n, Nat.not_lt.mpr h1]
    rw [hstep]
    by_cases h5 : elapsed + 5 ≤ T
    · exact ih (n + 1) (elapsed + retry_interval) (by simpa [retry_interval] using h5)
        (by simp only [retry_interval]; omega)
    · obtain ⟨f1, rfl⟩ : ∃ f1, f = f1 + 1 := ⟨f - 1, by omega⟩
      refine ⟨elapsed + 5, ?_, by omega, by omega⟩
      simp [waitForLoop, retry_interval, hq (n + 1), Nat.lt_of_not_le h5,
        show T < elapsed + 5 by omega]

/-- On a never-matching query oracle, the `select` polling loop returns
`None` at the first multiple of the retry interval past the deadline. -/
lemma selectLoop_never_matches {α : Type} (query : Nat → Option α)
    (T : Nat) (hq : ∀ m, query m = none) :
    ∀ fuel n elapsed, elapsed ≤ T → (T - elapsed) / 5 + 2 ≤ fuel →
      ∃ r, selectLoop query T fuel n elapsed = some (.result none r)
          ∧ T < r ∧ r ≤ T + 5 := by
  intro fuel
  induction fuel with
  | zero =>
    intro n elapsed h1 h2
    omega
  | succ f ih =>
    intro n elapsed h1 h2
    have hstep : selectLoop query T (f + 1) n elapsed
        = selectLoop query T f (n + 1) (elapsed + retry_interval) := by
      simp [selectLoop, hq n, Nat.not_lt.mpr h1]
    rw [hstep]
    by_cases h5 : elapsed + 5 ≤ T
    · exact ih (n + 1) (elapsed + retry_interval) (by simpa [retry_interval] using h5)
        (by simp only [retry_interval]; omega)
    · obtain ⟨f1, rfl⟩ : ∃ f1, f = f1 + 1 := ⟨f - 1, by omega⟩
      refine ⟨elapsed + 5, ?_, by omega, by omega⟩
      simp [selectLoop, retry_interval, hq (n + 1),
        show T < elapsed + 5 by omega]

/-- On an always-empty query oracle, the `select_all` polling loop returns
the (empty) candidate list at the first multiple of the retry interval
past the deadline. -/
lemma selectAllLoop_never_matches {α : Type} (query : Nat → List α)
    (T : Nat) (node_name : Option String) (nameOf : α → String)
    (hq : ∀ m, query m = []) :
    ∀ fuel n elapsed, elapsed ≤ T → (T - elapsed) / 5 + 2 ≤ fuel →
      ∃ r, selectAllLoop query T node_name nameOf fuel n elapsed
          = some (.result [] r) ∧ T < r ∧ r ≤ T + 5 := by
  intro fuel
  induction fuel with
  | zero =>
    intro n elapsed h1 h2
    omega
  | succ f ih =>
    intro n elapsed h1 h2
    have hstep : selectAllLoop query T node_name nameOf (f + 1) n elapsed
        = selectAllLoop query T node_name nameOf f (n + 1)
            (elapsed + retry_interval) := by
      simp [selectAllLoop, hq n, Nat.not_lt.mpr h1]
    rw [hstep]
    by_cases h5 : elapsed + 5 ≤ T
    · exact ih (n + 1) (elapsed + retry_interval) (by simpa [retry_interval] using h5)
        (by simp only [retry_interval]; omega)
    · obtain ⟨f1, rfl⟩ : ∃ f1, f = f1 + 1 := ⟨f - 1, by omega⟩
      refine ⟨elapsed + 5, ?_, by omega, by omega⟩
      simp [selectAllLoop, retry_interval, hq (n + 1),
        show T < elapsed + 5 by omega]

/-- C4: for a selector that never matches and a positive timeout, `select`
polls on the fixed 0.5 s interval until the deadline and then returns
`None` (a `.result`, not a raised error), and `select_all` under the same
conditions returns the empty list; neither primitive turns its timeout
into an error. -/
theorem claim_C4_theorem (qs : Nat → Option Nat) (qa : Nat → List Nat)
    (node_name : Option String) (nameOf : Nat → String) (T fuel : Nat)
    (hT : 0 < T) (hqs : ∀ m, qs m = none) (hqa : ∀ m, qa m = [])
    (hfuel : T / 5 + 2 ≤ fuel) :
    (∃ r, select qs T fuel = some (.result none r)
        ∧ T < r ∧ r ≤ T + retry_interval)
    ∧ (∃ r, select_all qa T node_name nameOf fuel = some (.result [] r)
        ∧ T < r ∧ r ≤ T + retry_interval) := by
  constructor
  · obtain ⟨r, hr, h1, h2⟩ := selectLoop_never_matches qs T hqs fuel 1 0
      (Nat.zero_le T) (by simpa using hfuel)
    refine ⟨r, ?_, h1, by simpa [retry_interval] using h2⟩
    simp [select, hqs 0, Nat.pos_iff_ne_zero.mp hT, hr]
  · obtain ⟨r, hr, h1, h2⟩ := selectAllLoop_never_matches qa T node_name
      nameOf hqa fuel 1 0 (Nat.zero_le T) (by simpa using hfuel)
    refine ⟨r, ?_, h1, by simpa [retry_interval] using h2⟩
    simp [select_all, hqa 0, Nat.pos_iff_ne_zero.mp hT, hr]

/-- C4 witness: timeout 10 (one second), never-matching oracles, fuel 4 —
`select` returns `None` and `select_all` returns `[]` between 10 and 15
tenths of a second. -/
theorem claim_C4_witness :
    (∃ r, select (fun _ => (none : Option Nat)) 10 4
        = some (.result none r) ∧ 10 < r ∧ r ≤ 10 + retry_interval)
    ∧ (∃ r, select_all (fun _ => ([] : List Nat)) 10 none (fun _ => "") 4
        = some (.result [] r) ∧ 10 < r ∧ r ≤ 10 + retry_interval) :=
  claim_C4_theorem (fun _ => none) (fun _ => []) none (fun _ => "") 10 4
    (by decide) (fun _ => rfl) (fun _ => rfl) (by decide)

/-- C2 counterexample: the claim also asserts the timeout-raise contract
when the query is given as text, but `wait_for`'s body consists only of
the `if selector:` branch; called with text alone it performs no lookup
and returns `None` immediately (elapsed 0, no raise), even though the
text "submit" is never satisfied. -/
theorem claim_C2_counterexample :
    wait_for (fun _ => (none : Option Nat)) "" "submit" 10 4
      = some (.result none 0) := rfl

/-- C2 (amended): for a css selector that never matches, `wait_for` raises
the typed `ElementWithSelectorNotFoundException` no earlier than the
timeout and no later than the timeout plus one 0.5 s retry interval. -/
theorem claim_C2_theorem (query : Nat → Option Nat) (sel txt : String)
    (T fuel : Nat) (hsel : sel.isEmpty = false) (hq : ∀ m, query m = none)
    (hfuel : T / 5 + 2 ≤ fuel) :
    ∃ r, wait_for query sel txt T fuel = some (.raisedNotFound sel r)
      ∧ T ≤ r ∧ r ≤ T + retry_interval := by
  obtain ⟨r, hr, h1, h2⟩ := waitForLoop_never_matches query sel T hq fuel 1 0
    (Nat.zero_le T) (by simpa using hfuel)
  refine ⟨r, ?_, by omega, by simpa [retry_interval] using h2⟩
  simp [wait_for, hsel, hq 0, hr]

/-- C2 witness: selector "div", timeout 10 (one second), never-matching
oracle, fuel 4 — the typed error is raised between 10 and 15 tenths of a
second. -/
theorem claim_C2_witness :
    ∃ r, wait_for (fun _ => (none : Option Nat)) "div" "" 10 4
      = some (.raisedNotFound "div" r) ∧ 10 ≤ r ∧ r ≤ 10 + retry_interval :=
  claim_C2_theorem (fun _ => none) "div" "" 10 4 (by decide)
    (fun _ => rfl) (by decide)

/-- Pushing the mangled flag `_Tab__last` onto a node's attribute
dictionary does not change what `getattr(_node, "__last", None)` sees. -/
lemma lookup_last_pyUpdateAndMark (node : NodeRef) :
    (pyUpdateAndMark node).attrs.lookup "__last" = node.attrs.lookup "__last" := by
  have h : ("__last" == mangledLast) = false := by decide
  simp [pyUpdateAndMark, List.lookup, h]

/-- Under a protocol oracle that reports "could not find node" on every
attempt, the node-scoped `query_selector_all` refreshes the node once per
recursion frame and never returns, for every recursion budget. -/
lemma query_selector_all_diverges (proto : Nat → Except PErr (List Nat))
    (known : Nat → Bool)
    (hp : ∀ m, ∃ e, proto m = .error e ∧ containsNodeNotFound e.message = true) :
    ∀ fuel (node : NodeRef) (n : Nat), node.attrs.lookup "__last" = none →
      ∃ nf, query_selector_all proto known fuel node n = (.recursionLimit, nf)
        ∧ nf.updates = node.updates + fuel := by
  intro fuel
  induction fuel with
  | zero =>
    intro node n _
    exact ⟨node, rfl, by omega⟩
  | succ f ih =>
    intro node n hl
    obtain ⟨e, he, hm⟩ := hp n
    have hg : pyGetLast node = false := by simp [pyGetLast, hl]
    have hstep : query_selector_all proto known (f + 1) node n
        = query_selector_all proto known f (pyUpdateAndMark node) (n + 1) := by
      simp [query_selector_all, he, hm, hg]
    obtain ⟨nf, h1, h2⟩ := ih (pyUpdateAndMark node) (n + 1)
      (by rw [lookup_last_pyUpdateAndMark]; exact hl)
    refine ⟨nf, hstep ▸ h1, ?_⟩
    simp only [pyUpdateAndMark] at h2
    omega

/-- The same divergence for the node-scoped `query_selector`. -/
lemma query_selector_diverges (protoQ : Nat → Except PErr (Option Nat))
    (known : Nat → Bool)
    (hp : ∀ m, ∃ e, protoQ m = .error e ∧ containsNodeNotFound e.message = true) :
    ∀ fuel (node : NodeRef) (n : Nat), node.attrs.lookup "__last" = none →
      ∃ nf, query_selector protoQ known fuel node n = (.recursionLimit, nf)
        ∧ nf.updates = node.updates + fuel := by
  intro fuel
  induction fuel with
  | zero =>
    intro node n _
    exact ⟨node, rfl, by omega⟩
  | succ f ih =>
    intro node n hl
    obtain ⟨e, he, hm⟩ := hp n
    have hg : pyGetLast node = false := by simp [pyGetLast, hl]
    have hstep : query_selector protoQ known (f + 1) node n
        = query_selector protoQ known f (pyUpdateAndMark node) (n + 1) := by
      simp [query_selector, he, hm, hg]
    obtain ⟨nf, h1, h2⟩ := ih (pyUpdateAndMark node) (n + 1)
      (by rw [lookup_last_pyUpdateAndMark]; exact hl)
    refine ⟨nf, hstep ▸ h1, ?_⟩
    simp only [pyUpdateAndMark] at h2
    omega

/-- C1 counterexample: a node-scoped `query_selector_all` whose protocol
call reports "Could not find node with given id" on every attempt has,
after a recursion budget of three frames, refreshed the node three times
and still not returned — the claimed single refresh, single retry and
propagation of the original protocol error do not happen. -/
theorem claim_C1_counterexample :
    (query_selector_all protoNnfL (fun _ => true) 3 freshNode 0).1
      = .recursionLimit
    ∧ ((query_selector_all protoNnfL (fun _ => true) 3 freshNode 0).2).updates
      = 3 := ⟨rfl, rfl⟩

/-- C1 (amended): when a query scoped to a previously resolved node fails
with a protocol error whose message reports that the node could not be
found, the engine refreshes the node and retries on every such failure
without bound — one refresh per recursion frame, for every recursion
budget, in both `query_selector_all` and `query_selector` — because the
retry guard is stored under the name-mangled attribute `_Tab__last` but
read back via `getattr(_node, "__last", None)`; the protocol error is
never propagated to the caller from this path. -/
theorem claim_C1_theorem (proto : Nat → Except PErr (List Nat))
    (protoQ : Nat → Except PErr (Option Nat)) (known : Nat → Bool)
    (node : NodeRef) (fuel n : Nat)
    (hp : ∀ m, ∃ e, proto m = .error e ∧ containsNodeNotFound e.message = true)
    (hpQ : ∀ m, ∃ e, protoQ m = .error e ∧ containsNodeNotFound e.message = true)
    (hlast : node.attrs.lookup "__last" = none) :
    (∃ nf, query_selector_all proto known fuel node n = (.recursionLimit, nf)
      ∧ nf.updates = node.updates + fuel)
    ∧ (∃ nf, query_selector protoQ known fuel node n = (.recursionLimit, nf)
      ∧ nf.updates = node.updates + fuel) :=
  ⟨query_selector_all_diverges proto known hp fuel node n hlast,
   query_selector_diverges protoQ known hpQ fuel node n hlast⟩

/-- C1 witness: the divergence instantiated on the concrete failing
oracles, a fresh node, and a budget of two frames. -/
theorem claim_C1_witness :
    (∃ nf, query_selector_all protoNnfL (fun _ => true) 2 freshNode 0
      = (.recursionLimit, nf) ∧ nf.updates = freshNode.updates + 2)
    ∧ (∃ nf, query_selector protoNnfQ (fun _ => true) 2 freshNode 0
      = (.recursionLimit, nf) ∧ nf.updates = freshNode.updates + 2) :=
  claim_C1_theorem protoNnfL protoNnfQ (fun _ => true) freshNode 2 0
    (fun _ => ⟨⟨"Could not find node with given id"⟩, rfl, by decide⟩)
    (fun _ => ⟨⟨"Could not find node with given id"⟩, rfl, by decide⟩)
    rfl

end BotasaurusTab

namespace BotasaurusDomStorage

/-- C9 witness: a `StorageId` with a security origin but no storage key
emits "isLocalStorage" and "securityOrigin", omits "storageKey", and the
always-present entry is not null. -/
theorem claim_C9_witness :
    ("isLocalStorage"
        ∈ ((⟨true, some "https://example.org", none⟩ : StorageId).to_json).map
            Prod.fst)
    ∧ ("securityOrigin"
        ∈ ((⟨true, some "https://example.org", none⟩ : StorageId).to_json).map
            Prod.fst)
    ∧ ¬ ("storageKey"
        ∈ ((⟨true, some "https://example.org", none⟩ : StorageId).to_json).map
            Prod.fst)
    ∧ (("isLocalStorage", JVal.bool true)
          ∈ (⟨true, some "https://example.org", none⟩ : StorageId).to_json
        → ("isLocalStorage", JVal.bool true).2 ≠ JVal.null) := by
  have h := claim_C9_theorem ⟨true, some "https://example.org", none⟩
  exact ⟨h.1, h.2.1.mpr rfl, fun hmem => by simpa using h.2.2.1.mp hmem,
    h.2.2.2 ("isLocalStorage", JVal.bool true)⟩

end BotasaurusDomStorage
